import Mathlib

/-!
A shallow embedding of the authentication core of the `colony` personal-finance
API (backend/app/auth: utils.py, exceptions.py, service.py, dependencies.py,
schemas.py, models.py, config.py), with theorems checking the natural-language
specification against it.

Conventions of the embedding:
* The user store (SQLAlchemy session over the `users` table) is a `List User`;
  `db.query(User).filter(...).first()` becomes `List.find?`.
* Timestamps are whole-second UNIX epoch values (`Nat`), per the spec's numeric
  semantics; each operation takes the current instant `now` explicitly.
* Exceptions become `Except` values carrying an inductive error type whose
  `error_code` / `message` / `status_code` projections mirror exceptions.py.
* The two external cryptographic collaborators, pwdlib (Argon2 hashing) and
  PyJWT (HMAC-SHA256), are not part of the repository; they are modelled
  symbolically (ideal hash, ideal MAC) faithfully to their documented
  behaviour and the spec's contracts (sections 4.1 and 4.2).
-/

namespace Colony

/-- A user record, mirroring `models.User` (`users` table): unique id and
email, opaque password hash, profile fields, and the `active` flag inherited
from the shared `BaseModel`. -/
structure User where
  id : Nat
  email : String
  password_hash : String
  first_name : String
  last_name : String
  preferred_currency : String
  locale : String
  active : Bool
deriving Repr, DecidableEq

/-- Registration payload, mirroring `schemas.UserCreate`. -/
structure UserCreate where
  email : String
  password : String
  first_name : String
  last_name : String
  preferred_currency : String
  locale : String
deriving Repr, DecidableEq

/-- Password-change payload, mirroring `schemas.UserUpdatePassword`. -/
structure UserUpdatePassword where
  current_password : String
  new_password : String
deriving Repr, DecidableEq

/-- Login response, mirroring `schemas.Token`. -/
structure Token where
  access_token_alg : String
  access_token_sub : Option String
  access_token_iat : Nat
  access_token_exp : Nat
  token_type : String
  expires_in : Nat
deriving Repr, DecidableEq

/-- Modelled from the spec: pwdlib's `PasswordHash.recommended().hash` (the
library is an external dependency, not in the repository source). Section 4.1
specifies a salted one-way hash whose only observable contract is the
verify/hash round trip; we model the ideal hash, recording the password under
an algorithm marker so that verification is exact recovery. -/
def get_password_hash (password : String) : String :=
  "$argon2id$v=19$" ++ password

/-- Modelled from the spec: pwdlib's `PasswordHash.recommended().verify`
(external dependency). Ideal-hash verification: a total Boolean check that
never throws, true exactly when `hashed_password` is the hash of
`plain_password`. Mirrors `utils.verify_password`. -/
def verify_password (plain_password : String) (hashed_password : String) : Bool :=
  hashed_password == "$argon2id$v=19$" ++ plain_password

/-- The decoded claim set of a JWT, as built by `utils.create_access_token`:
`{"sub": ..., "iat": ..., "exp": ..., "type": "access"}`. `sub` is optional
because `payload.get("sub")` may be absent. -/
structure Claims where
  sub : Option String
  iat : Nat
  exp : Nat
  type : String
deriving Repr, DecidableEq

/-- Modelled from the spec: an HMAC-SHA256 tag (computed by PyJWT, an external
dependency). In the symbolic ideal-MAC model a tag is determined by, and
determines, the signing key, the algorithm and the signed payload. -/
structure MacTag where
  key : String
  alg : String
  payload : Claims
deriving Repr, DecidableEq

/-- Modelled from the spec: the ideal MAC computation (PyJWT's signing step). -/
def hmacSign (key : String) (alg : String) (payload : Claims) : MacTag :=
  ⟨key, alg, payload⟩

/-- A compact serialized JWT: declared header algorithm, payload, signature.
A tampered token is any `EncodedToken` whose `sig` differs from the honest
tag over its own header and payload. -/
structure EncodedToken where
  header_alg : String
  payload : Claims
  sig : MacTag
deriving Repr, DecidableEq

/-- PyJWT's `jwt.encode(payload, key, algorithm=alg)`. -/
def jwtEncode (key : String) (alg : String) (payload : Claims) : EncodedToken :=
  ⟨alg, payload, hmacSign key alg payload⟩

/-- The `jwt.exceptions.InvalidTokenError` subclasses that
`jwt.decode(token, key, algorithms=[...])` can raise on this code path:
algorithm not in the allow-list, signature mismatch, and
`ExpiredSignatureError` when `exp <= now` (PyJWT validates with no leeway). -/
inductive JwtDecodeError where
  | invalidAlgorithm
  | invalidSignature
  | expiredSignature
deriving Repr, DecidableEq

/-- PyJWT's `jwt.decode(token, key, algorithms)`: the declared algorithm must
be in the pinned allow-list, the signature must match, and only then are
claims validated — expiry fails when `exp <= now` (no leeway window). -/
def jwtDecode (token : EncodedToken) (key : String) (algorithms : List String)
    (now : Nat) : Except JwtDecodeError Claims :=
  if ¬ algorithms.contains token.header_alg then .error .invalidAlgorithm
  else if token.sig ≠ hmacSign key token.header_alg token.payload then
    .error .invalidSignature
  else if token.payload.exp ≤ now then .error .expiredSignature
  else .ok token.payload

/-- The domain error taxonomy of `auth/exceptions.py` (one constructor per
exception class; `userAlreadyExists` carries the email interpolated into its
message). -/
inductive AuthError where
  | userNotFound
  | userAlreadyExists (email : String)
  | invalidCredentials
  | inactiveUser
  | invalidToken
  | incorrectPassword
  | passwordTooWeak
  | tokenExpired
deriving Repr, DecidableEq

namespace AuthError

/-- Modelled from the spec: the `ErrorCode` constants live in
`auth/constants.py`, which is absent from the provided sources; the spec says
each error maps 1:1 to a stable machine-readable code, so each class gets a
distinct code string named after it. -/
def error_code : AuthError → String
  | userNotFound => "USER_NOT_FOUND"
  | userAlreadyExists _ => "USER_ALREADY_EXISTS"
  | invalidCredentials => "INVALID_CREDENTIALS"
  | inactiveUser => "INACTIVE_USER"
  | invalidToken => "INVALID_TOKEN"
  | incorrectPassword => "INCORRECT_PASSWORD"
  | passwordTooWeak => "PASSWORD_TOO_WEAK"
  | tokenExpired => "TOKEN_EXPIRED"

/-- The `message` each exception class passes to `AppExceptionError.__init__`. -/
def message : AuthError → String
  | userNotFound => "User not found"
  | userAlreadyExists email => "User with email " ++ email ++ " already exists"
  | invalidCredentials => "Incorrect email or password"
  | inactiveUser => "User account is inactive"
  | invalidToken => "Could not validate credentials"
  | incorrectPassword => "Current password is incorrect"
  | passwordTooWeak => "Password does not meet security requirements"
  | tokenExpired => "Token has expired"

/-- The HTTP status each exception class passes to `AppExceptionError.__init__`. -/
def status_code : AuthError → Nat
  | userNotFound => 404
  | userAlreadyExists _ => 409
  | invalidCredentials => 401
  | inactiveUser => 403
  | invalidToken => 401
  | incorrectPassword => 400
  | passwordTooWeak => 400
  | tokenExpired => 401

end AuthError

/-- `auth/config.py` `AuthSettings`: signing secret, pinned algorithm name and
access-token lifetime in minutes, supplied externally at process start. -/
structure AuthSettings where
  SECRET_KEY : String := "your-secret-key-here-change-in-production"
  ALGORITHM : String := "HS256"
  ACCESS_TOKEN_EXPIRE_MINUTES : Nat := 30
deriving Repr, DecidableEq

/-- The module-level `auth_settings` instance with the defaults of config.py. -/
def auth_settings : AuthSettings := {}

/-- `utils.create_access_token(data, expires_delta)`: copies the claim data
(the only key callers pass is `"sub"`), sets `exp = now + expires_delta`
(falling back to the configured lifetime), `iat = now`, `type = "access"`,
and signs with the configured secret and algorithm. Both `datetime.now` calls
are embedded as the same instant `now`; `expires_delta` is in whole seconds. -/
def create_access_token (s : AuthSettings) (now : Nat) (sub : Option String)
    (expires_delta : Option Nat) : EncodedToken :=
  let expire : Nat :=
    match expires_delta with
    | some d => now + d
    | none => now + s.ACCESS_TOKEN_EXPIRE_MINUTES * 60
  jwtEncode s.SECRET_KEY s.ALGORITHM ⟨sub, now, expire, "access"⟩

/-- `utils.verify_token(token)`: decode with the configured secret and the
one-element algorithm allow-list; every `InvalidTokenError` (expiry included)
is caught and re-raised as the single generic `InvalidTokenException`. -/
def verify_token (s : AuthSettings) (now : Nat) (token : EncodedToken) :
    Except AuthError Claims :=
  match jwtDecode token s.SECRET_KEY [s.ALGORITHM] now with
  | .ok payload => .ok payload
  | .error _ => .error .invalidToken

/-- `utils.extract_email_from_token(token)`: `verify_token` then the `sub`
claim; an absent `sub` is an `InvalidTokenException`. -/
def extract_email_from_token (s : AuthSettings) (now : Nat)
    (token : EncodedToken) : Except AuthError String :=
  match verify_token s now token with
  | .error e => .error e
  | .ok payload =>
    match payload.sub with
    | none => .error .invalidToken
    | some email => .ok email

/-- The result of attempting an insert under the store's uniqueness
constraint on `users.email` (SQLAlchemy raises `IntegrityError`). -/
inductive DbError where
  | integrityError
deriving Repr, DecidableEq

/-- The store's commit of an insert: the unique index on `email` rejects a
row whose email is already present, otherwise the row is appended. -/
def insertUser (db : List User) (u : User) : Except DbError (List User) :=
  if db.any (fun v => v.email == u.email) then .error .integrityError
  else .ok (db ++ [u])

namespace AuthService

/-- `AuthService.get_user_by_email`: first user matching the email that is
also active (`filter(User.email == email, User.active)`). -/
def get_user_by_email (db : List User) (email : String) : Option User :=
  db.find? (fun u => u.email == email && u.active)

/-- `AuthService.get_user_by_id`: first active user with the given id. -/
def get_user_by_id (db : List User) (user_id : Nat) : Option User :=
  db.find? (fun u => u.id == user_id && u.active)

/-- `AuthService.authenticate_user`: look up an active user by email; missing
user and failed password verification both raise
`InvalidCredentialsExceptionError`. -/
def authenticate_user (db : List User) (email : String) (password : String) :
    Except AuthError User :=
  match db.find? (fun u => u.email == email && u.active) with
  | none => .error .invalidCredentials
  | some user =>
    if ¬ verify_password password user.password_hash then
      .error .invalidCredentials
    else .ok user

/-- `AuthService.create_user`, with the existence check and the committed
insert reading separate snapshots of the store: the check queries by email
only (no `active` filter) at `dbAtCheck`, and the insert commits against
`dbAtInsert`, whose uniqueness constraint may reject the row; an
`IntegrityError` is caught, rolled back and re-raised as
`UserAlreadyExistsExceptionError`. `newId` stands for the store-assigned
UUID; `active` defaults to true (BaseModel). A sequential call is
`create_user db db uc newId`. -/
def create_user (dbAtCheck : List User) (dbAtInsert : List User)
    (uc : UserCreate) (newId : Nat) : Except AuthError (User × List User) :=
  match dbAtCheck.find? (fun u => u.email == uc.email) with
  | some _ => .error (.userAlreadyExists uc.email)
  | none =>
    let db_user : User :=
      { id := newId
        email := uc.email
        password_hash := get_password_hash uc.password
        first_name := uc.first_name
        last_name := uc.last_name
        preferred_currency := uc.preferred_currency
        locale := uc.locale
        active := true }
    match insertUser dbAtInsert db_user with
    | .ok db' => .ok (db_user, db')
    | .error .integrityError => .error (.userAlreadyExists uc.email)

/-- `AuthService.update_password`: re-verify the current password against the
stored hash (failure raises `IncorrectPasswordExceptionError` and commits
nothing), then store the hash of the new password; the committed store
replaces the user's row (keyed by primary-key id). -/
def update_password (db : List User) (user : User)
    (pu : UserUpdatePassword) : Except AuthError (User × List User) :=
  if ¬ verify_password pu.current_password user.password_hash then
    .error .incorrectPassword
  else
    let user' : User := { user with password_hash := get_password_hash pu.new_password }
    .ok (user', db.map (fun v => if v.id == user.id then user' else v))

/-- Modelled from the spec: `JWT_TOKEN_PREFIX` is defined in
`auth/constants.py`, which is absent from the provided sources; the spec fixes
the transport scheme label to `"bearer"`. -/
def jwtTokenPrefixVal : String := "bearer"

/-- `AuthService.create_access_token(user)`: issue a token for the user's
email with the configured lifetime and wrap it with the scheme label and the
lifetime converted to seconds. -/
def service_create_access_token (s : AuthSettings) (now : Nat) (user : User) :
    Token :=
  let tok := create_access_token s now (some user.email)
    (some (s.ACCESS_TOKEN_EXPIRE_MINUTES * 60))
  { access_token_alg := tok.header_alg
    access_token_sub := tok.payload.sub
    access_token_iat := tok.payload.iat
    access_token_exp := tok.payload.exp
    token_type := jwtTokenPrefixVal
    expires_in := s.ACCESS_TOKEN_EXPIRE_MINUTES * 60 }

end AuthService

/-- An `HTTPException` as raised by the gate: status, detail, and the
optional `WWW-Authenticate` challenge header. -/
structure HttpError where
  status_code : Nat
  detail : String
  www_authenticate : Option String
deriving Repr, DecidableEq

/-- `dependencies.get_current_user`: `extract_email_from_token`, any
`InvalidTokenException` becoming a 401 with a Bearer challenge; then
`get_user_by_email`, `None` becoming a 401 "User not found" with a Bearer
challenge. -/
def get_current_user (s : AuthSettings) (now : Nat) (db : List User)
    (token : EncodedToken) : Except HttpError User :=
  match extract_email_from_token s now token with
  | .error _ => .error ⟨401, "Could not validate credentials", some "Bearer"⟩
  | .ok email =>
    match AuthService.get_user_by_email db email with
    | none => .error ⟨401, "User not found", some "Bearer"⟩
    | some user => .ok user

/-- `dependencies.get_current_active_user`: 403 "Inactive user" (no challenge
header) when the resolved user is inactive. -/
def get_current_active_user (s : AuthSettings) (now : Nat) (db : List User)
    (token : EncodedToken) : Except HttpError User :=
  match get_current_user s now db token with
  | .error e => .error e
  | .ok user =>
    if ¬ user.active then .error ⟨403, "Inactive user", none⟩
    else .ok user

open AuthService (authenticate_user)

/-! ## Helper lemmas -/

/-- `String.append` is left-cancellative. -/
theorem string_append_left_cancel {a b c : String} (h : a ++ b = a ++ c) :
    b = c := by
  have hd : a.data ++ b.data = a.data ++ c.data := by
    have := congrArg String.data h
    rwa [String.data_append a b, String.data_append a c] at this
  have hbc : b.data = c.data := List.append_cancel_left hd
  cases b
  cases c
  exact congrArg String.mk hbc

/-- Hashes of distinct passwords never cross-verify in the ideal-hash model. -/
theorem verify_password_hash_ne (p1 p2 : String) (h : p1 ≠ p2) :
    verify_password p1 (get_password_hash p2) = false := by
  unfold verify_password get_password_hash
  refine beq_eq_false_iff_ne.mpr ?_
  intro hc
  exact h (string_append_left_cancel hc).symm

/-- Round trip of the ideal hasher. -/
theorem verify_password_hash_self (p : String) :
    verify_password p (get_password_hash p) = true := by
  simp [verify_password, get_password_hash]

/-- Replacing the row keyed by the found user's id (the store's committed
UPDATE of that row) makes `find?` return the replacement, provided the id is
unique in the store and the replacement still satisfies the predicate. -/
theorem find?_replace_by_id (db : List User) (user user' : User)
    (p : User → Bool) (hfind : db.find? p = some user)
    (hid : ∀ v ∈ db, v.id = user.id → v = user) (hp : p user' = true) :
    (db.map (fun v => if v.id == user.id then user' else v)).find? p =
      some user' := by
  induction db with
  | nil => cases hfind
  | cons a tl ih =>
    by_cases hpa : p a = true
    · rw [List.find?_cons_of_pos _ hpa] at hfind
      have ha : a = user := by injection hfind
      subst ha
      rw [List.map_cons]
      have hfa : (if a.id == a.id then user' else a) = user' := by simp
      rw [hfa]
      exact List.find?_cons_of_pos _ hp
    · rw [List.find?_cons_of_neg _ hpa] at hfind
      have hpuser : p user = true := List.find?_some hfind
      have hne : (a.id == user.id) = false := by
        refine beq_eq_false_iff_ne.mpr ?_
        intro hcontra
        have hau : a = user := hid a (List.mem_cons_self a tl) hcontra
        rw [hau] at hpa
        exact hpa hpuser
      rw [List.map_cons]
      have hfa : (if a.id == user.id then user' else a) = a := by simp [hne]
      rw [hfa, List.find?_cons_of_neg _ hpa]
      exact ih hfind (fun v hv => hid v (List.mem_cons_of_mem a hv))

/-! ## Claims -/

/-- C8: for all passwords p, `verify(p, hash(p))` returns true; for all
distinct p1 and p2, `verify(p1, hash(p2))` returns false, and verify is a
total Boolean function (it returns false on mismatch rather than throwing). -/
theorem c8_hash_verify_roundtrip (p p1 p2 : String) (h : p1 ≠ p2) :
    verify_password p (get_password_hash p) = true ∧
    verify_password p1 (get_password_hash p2) = false := by
  exact ⟨verify_password_hash_self p, verify_password_hash_ne p1 p2 h⟩

/-- Witness for C8 at concrete passwords. -/
theorem c8_hash_verify_roundtrip_witness :
    verify_password "password123" (get_password_hash "password123") = true ∧
    verify_password "password123" (get_password_hash "newpass123") = false :=
  c8_hash_verify_roundtrip "password123" "password123" "newpass123" (by decide)

/-- C4: decoding a token produced by `issue(sub, ttl)` at any time strictly
before its expiry succeeds and yields a claim set whose `sub` is the issued
subject, whose `type` is `"access"`, and whose `exp - iat` equals `ttl`
seconds. -/
theorem c4_decode_issue_roundtrip (s : AuthSettings) (sub : String)
    (ttl now t : Nat) (_httl : 0 < ttl) (ht : t < now + ttl) :
    ∃ c : Claims,
      verify_token s t (create_access_token s now (some sub) (some ttl)) =
        .ok c ∧
      c.sub = some sub ∧ c.type = "access" ∧ c.exp - c.iat = ttl := by
  refine ⟨⟨some sub, now, now + ttl, "access"⟩, ?_, rfl, rfl,
    Nat.add_sub_cancel_left now ttl⟩
  unfold verify_token create_access_token jwtEncode jwtDecode hmacSign
  simp [Nat.not_le.mpr ht]

/-- Witness for C4 at a concrete subject, lifetime and clock. -/
theorem c4_decode_issue_roundtrip_witness :
    ∃ c : Claims,
      verify_token auth_settings 2799
          (create_access_token auth_settings 1000 (some "a@x.com")
            (some 1800)) = .ok c ∧
      c.sub = some "a@x.com" ∧ c.type = "access" ∧ c.exp - c.iat = 1800 :=
  c4_decode_issue_roundtrip auth_settings "a@x.com" 1800 1000 2799
    (by decide) (by decide)

/-- C1 counterexample: a token signed with the configured secret whose `exp`
(50) has passed at `now = 100` is rejected by `verify_token` with the generic
`InvalidToken` failure, not with `TokenExpired`: the `except InvalidTokenError`
handler in utils.py swallows PyJWT's `ExpiredSignatureError` subclass, and
`TokenExpiredExceptionError` is never raised. -/
theorem c1_expired_tokenexpired_counterexample :
    verify_token auth_settings 100
        (jwtEncode auth_settings.SECRET_KEY auth_settings.ALGORITHM
          ⟨some "a@x.com", 0, 50, "access"⟩) =
      .error .invalidToken ∧
    AuthError.invalidToken ≠ AuthError.tokenExpired := by
  exact ⟨rfl, by decide⟩

/-- C1 amended: decoding a token whose signature is valid but whose `exp` has
passed fails with the generic `InvalidToken` (the same failure as for a
tampered signature), and `verify_token` never produces the `TokenExpired`
subtype at all — the subtype exists in the taxonomy but is unreachable from
decoding. The tampered-signature half of the claim does hold. -/
theorem c1_expired_and_tampered_both_invalid (s : AuthSettings) (now t : Nat)
    (c : Claims) (tag : MacTag) (hexp : c.exp ≤ now)
    (htag : tag ≠ hmacSign s.SECRET_KEY s.ALGORITHM c) :
    verify_token s now (jwtEncode s.SECRET_KEY s.ALGORITHM c) =
      .error .invalidToken ∧
    verify_token s t ⟨s.ALGORITHM, c, tag⟩ = .error .invalidToken ∧
    ∀ (tok : EncodedToken) (u : Nat),
      verify_token s u tok ≠ .error .tokenExpired := by
  refine ⟨?_, ?_, ?_⟩
  · unfold verify_token jwtDecode jwtEncode hmacSign
    simp [hexp]
  · unfold verify_token jwtDecode
    simp [htag]
  · intro tok u
    unfold verify_token
    cases hd : jwtDecode tok s.SECRET_KEY [s.ALGORITHM] u <;> simp

/-- Witness for the amended C1 at concrete tokens, times and tamper. -/
theorem c1_expired_and_tampered_both_invalid_witness :
    verify_token auth_settings 3600
        (jwtEncode auth_settings.SECRET_KEY auth_settings.ALGORITHM
          ⟨some "b@x.com", 0, 1800, "access"⟩) =
      .error .invalidToken ∧
    verify_token auth_settings 5
        ⟨auth_settings.ALGORITHM, ⟨some "b@x.com", 0, 1800, "access"⟩,
          ⟨"not-the-secret", "HS256", ⟨some "b@x.com", 0, 1800, "access"⟩⟩⟩ =
      .error .invalidToken := by
  have h := c1_expired_and_tampered_both_invalid auth_settings 3600 5
    ⟨some "b@x.com", 0, 1800, "access"⟩
    ⟨"not-the-secret", "HS256", ⟨some "b@x.com", 0, 1800, "access"⟩⟩
    (by decide) (by decide)
  exact ⟨h.1, h.2.1⟩

/-- C2 counterexample: a valid, unexpired token for `"a@x.com"`, whose user
record exists with `active = false`, is answered by the gate with
401 "User not found" — not with a 403 — because `get_user_by_email` filters
on `User.active` and so the inactive user resolves as absent. -/
theorem c2_inactive_user_forbidden_counterexample :
    get_current_active_user auth_settings 10
        [⟨1, "a@x.com", get_password_hash "password123", "A", "X", "USD",
          "en-US", false⟩]
        (create_access_token auth_settings 0 (some "a@x.com") (some 1800)) =
      .error ⟨401, "User not found", some "Bearer"⟩ ∧
    (401 : Nat) ≠ 403 := by
  exact ⟨rfl, by decide⟩

/-- C2 amended: for a valid, unexpired token whose subject's user records are
all inactive, the gate responds 401 "User not found" with a Bearer challenge
— the identical response to an unknown subject — rather than 403: the
active-filter in the lookup makes inactive users indistinguishable from
absent ones, and the 403 "Inactive user" branch of
`get_current_active_user` is unreachable through token resolution. -/
theorem c2_inactive_user_gets_401 (s : AuthSettings) (e : String)
    (ttl now t : Nat) (db : List User) (ht : t < now + ttl)
    (hinact : ∀ u ∈ db, u.email = e → u.active = false) :
    get_current_active_user s t db
        (create_access_token s now (some e) (some ttl)) =
      .error ⟨401, "User not found", some "Bearer"⟩ := by
  have hnone : AuthService.get_user_by_email db e = none := by
    refine List.find?_eq_none.mpr ?_
    intro u hu
    by_cases he : u.email = e
    · simp [he, hinact u hu he]
    · simp [he]
  unfold get_current_active_user get_current_user extract_email_from_token
    verify_token create_access_token jwtDecode jwtEncode hmacSign
  simp [Nat.not_le.mpr ht, hnone]

/-- Witness for the amended C2 at a concrete inactive user and token. -/
theorem c2_inactive_user_gets_401_witness :
    get_current_active_user auth_settings 10
        [⟨2, "c@x.com", get_password_hash "pw123456", "C", "X", "USD",
          "en-US", false⟩]
        (create_access_token auth_settings 0 (some "c@x.com") (some 1800)) =
      .error ⟨401, "User not found", some "Bearer"⟩ :=
  c2_inactive_user_gets_401 auth_settings "c@x.com" 1800 0 10
    [⟨2, "c@x.com", get_password_hash "pw123456", "C", "X", "USD",
      "en-US", false⟩]
    (by decide) (by decide)

/-- C3 counterexample: the unauthorized response for a valid token whose
subject is unknown (`detail = "User not found"`) is not identical in shape to
the one for an invalid token (`detail = "Could not validate credentials"`):
the caller can distinguish the two. -/
theorem c3_indistinguishable_counterexample :
    get_current_user auth_settings 0 []
        ⟨"HS256", ⟨some "a@x.com", 0, 50, "access"⟩,
          ⟨"not-the-secret", "HS256", ⟨some "a@x.com", 0, 50, "access"⟩⟩⟩ =
      .error ⟨401, "Could not validate credentials", some "Bearer"⟩ ∧
    get_current_user auth_settings 10 []
        (create_access_token auth_settings 0 (some "a@x.com") (some 1800)) =
      .error ⟨401, "User not found", some "Bearer"⟩ ∧
    ("Could not validate credentials" : String) ≠ "User not found" := by
  exact ⟨rfl, rfl, by decide⟩

/-- C3 amended: the invalid-token response and the unknown-subject response
agree on status (401) and challenge header (`WWW-Authenticate: Bearer`) but
differ in the detail message ("Could not validate credentials" vs
"User not found"), so the caller can tell whether the subject email exists. -/
theorem c3_same_status_different_detail (s : AuthSettings) (now1 now2 : Nat)
    (db1 db2 : List User) (tok1 tok2 : EncodedToken) (err : AuthError)
    (email : String)
    (h1 : extract_email_from_token s now1 tok1 = .error err)
    (h2 : extract_email_from_token s now2 tok2 = .ok email)
    (h3 : AuthService.get_user_by_email db2 email = none) :
    ∃ r1 r2 : HttpError,
      get_current_user s now1 db1 tok1 = .error r1 ∧
      get_current_user s now2 db2 tok2 = .error r2 ∧
      r1.status_code = r2.status_code ∧
      r1.www_authenticate = r2.www_authenticate ∧
      r1.detail ≠ r2.detail := by
  refine ⟨⟨401, "Could not validate credentials", some "Bearer"⟩,
    ⟨401, "User not found", some "Bearer"⟩, ?_, ?_, rfl, rfl, by decide⟩
  · unfold get_current_user
    rw [h1]
  · unfold get_current_user
    rw [h2]
    simp [h3]

/-- Witness for the amended C3 at a concrete tampered token and a concrete
valid token over an empty directory. -/
theorem c3_same_status_different_detail_witness :
    ∃ r1 r2 : HttpError,
      get_current_user auth_settings 0 []
          ⟨"HS256", ⟨some "d@x.com", 0, 50, "access"⟩,
            ⟨"bad-key", "HS256", ⟨some "d@x.com", 0, 50, "access"⟩⟩⟩ =
        .error r1 ∧
      get_current_user auth_settings 10 []
          (create_access_token auth_settings 0 (some "d@x.com")
            (some 1800)) = .error r2 ∧
      r1.status_code = r2.status_code ∧
      r1.www_authenticate = r2.www_authenticate ∧
      r1.detail ≠ r2.detail :=
  c3_same_status_different_detail auth_settings 0 10 [] []
    ⟨"HS256", ⟨some "d@x.com", 0, 50, "access"⟩,
      ⟨"bad-key", "HS256", ⟨some "d@x.com", 0, 50, "access"⟩⟩⟩
    (create_access_token auth_settings 0 (some "d@x.com") (some 1800))
    .invalidToken "d@x.com" (by rfl) (by rfl) (by rfl)

/-- C5: `authenticate_user` fails with the single `InvalidCredentials` value
— hence identical code and message — both when no active user has the email
and when the password fails verification; it returns the user exactly when
the active-user lookup succeeds and the password verifies. -/
theorem c5_authenticate_identical_failures (db : List User)
    (email password : String) :
    (db.find? (fun u => u.email == email && u.active) = none →
      authenticate_user db email password = .error .invalidCredentials) ∧
    (∀ u, db.find? (fun u => u.email == email && u.active) = some u →
      verify_password password u.password_hash = false →
      authenticate_user db email password = .error .invalidCredentials) ∧
    (∀ u, db.find? (fun u => u.email == email && u.active) = some u →
      verify_password password u.password_hash = true →
      authenticate_user db email password = .ok u) ∧
    (∀ e, authenticate_user db email password = .error e →
      e = .invalidCredentials ∧ e.error_code = "INVALID_CREDENTIALS" ∧
      e.message = "Incorrect email or password") := by
  refine ⟨?_, ?_, ?_, ?_⟩
  · intro h
    simp [authenticate_user, h]
  · intro u hu hv
    simp [authenticate_user, hu, hv]
  · intro u hu hv
    simp [authenticate_user, hu, hv]
  · intro e he
    unfold authenticate_user at he
    cases hf : db.find? (fun u => u.email == email && u.active) with
    | none =>
      rw [hf] at he
      cases he
      exact ⟨rfl, rfl, rfl⟩
    | some u =>
      rw [hf] at he
      by_cases hv : verify_password password u.password_hash = true
      · simp [hv] at he
      · simp [hv] at he
        rw [← he]
        exact ⟨rfl, rfl, rfl⟩

/-- Witness for C5: success with the right password, identical failure for a
wrong password and for an unknown email. -/
theorem c5_authenticate_identical_failures_witness :
    authenticate_user
        [⟨1, "a@x.com", get_password_hash "password123", "A", "X", "USD",
          "en-US", true⟩] "a@x.com" "password123" =
      .ok ⟨1, "a@x.com", get_password_hash "password123", "A", "X", "USD",
        "en-US", true⟩ ∧
    authenticate_user
        [⟨1, "a@x.com", get_password_hash "password123", "A", "X", "USD",
          "en-US", true⟩] "a@x.com" "wrong" =
      .error .invalidCredentials ∧
    authenticate_user ([] : List User) "a@x.com" "password123" =
      .error .invalidCredentials := by
  refine ⟨?_, ?_, ?_⟩
  · exact (c5_authenticate_identical_failures _ "a@x.com" "password123").2.2.1
      _ (by rfl) (by decide)
  · exact (c5_authenticate_identical_failures _ "a@x.com" "wrong").2.1
      _ (by rfl) (by decide)
  · exact (c5_authenticate_identical_failures [] "a@x.com" "password123").1
      (by rfl)

/-- C6: registration fails with `UserAlreadyExists` whenever any record —
active or inactive — already has the email, and an `IntegrityError` raised by
the store's uniqueness constraint at insert time (the concurrent-registration
race, embedded as distinct check-time and insert-time snapshots) is caught
and re-reported as the same `UserAlreadyExists` failure. -/
theorem c6_create_user_duplicate_rejected (db dbAtInsert : List User)
    (uc : UserCreate) (newId : Nat) :
    (∀ u ∈ db, u.email = uc.email →
      AuthService.create_user db db uc newId =
        .error (.userAlreadyExists uc.email)) ∧
    (db.find? (fun u => u.email == uc.email) = none →
      dbAtInsert.any (fun v => v.email == uc.email) = true →
      AuthService.create_user db dbAtInsert uc newId =
        .error (.userAlreadyExists uc.email)) := by
  constructor
  · intro u hu he
    have hsome : (db.find? (fun u => u.email == uc.email)).isSome :=
      List.find?_isSome.mpr ⟨u, hu, by simp [he]⟩
    cases hf : db.find? (fun u => u.email == uc.email) with
    | none => rw [hf] at hsome; cases hsome
    | some v => simp [AuthService.create_user, hf]
  · intro hnone hany
    simp [AuthService.create_user, hnone, insertUser, hany]

/-- Witness for C6: a sequential duplicate registration (against an inactive
record) and a race where the check passed but the insert hits the constraint. -/
theorem c6_create_user_duplicate_rejected_witness :
    AuthService.create_user
        [⟨1, "a@x.com", get_password_hash "pw123456", "A", "X", "USD",
          "en-US", false⟩]
        [⟨1, "a@x.com", get_password_hash "pw123456", "A", "X", "USD",
          "en-US", false⟩]
        ⟨"a@x.com", "password123", "B", "Y", "USD", "en-US"⟩ 2 =
      .error (.userAlreadyExists "a@x.com") ∧
    AuthService.create_user []
        [⟨3, "e@x.com", get_password_hash "pw123456", "E", "X", "USD",
          "en-US", true⟩]
        ⟨"e@x.com", "password123", "B", "Y", "USD", "en-US"⟩ 4 =
      .error (.userAlreadyExists "e@x.com") := by
  constructor
  · exact (c6_create_user_duplicate_rejected
      [⟨1, "a@x.com", get_password_hash "pw123456", "A", "X", "USD",
        "en-US", false⟩]
      [⟨1, "a@x.com", get_password_hash "pw123456", "A", "X", "USD",
        "en-US", false⟩]
      ⟨"a@x.com", "password123", "B", "Y", "USD", "en-US"⟩ 2).1
      _ (List.mem_singleton.mpr rfl) (by rfl)
  · exact (c6_create_user_duplicate_rejected [] _
      ⟨"e@x.com", "password123", "B", "Y", "USD", "en-US"⟩ 4).2
      (by rfl) (by decide)

/-- C9: `issue_session` returns the signed token for the user's email
together with `token_type = "bearer"` and `expires_in` equal to the
configured lifetime in minutes times 60, which is also the issued token's
`exp - iat`. -/
theorem c9_issue_session_spec (s : AuthSettings) (now : Nat) (user : User) :
    (AuthService.service_create_access_token s now user).token_type =
      "bearer" ∧
    (AuthService.service_create_access_token s now user).expires_in =
      s.ACCESS_TOKEN_EXPIRE_MINUTES * 60 ∧
    (AuthService.service_create_access_token s now user).access_token_exp -
        (AuthService.service_create_access_token s now user).access_token_iat =
      s.ACCESS_TOKEN_EXPIRE_MINUTES * 60 ∧
    (AuthService.service_create_access_token s now user).access_token_sub =
      some user.email := by
  refine ⟨rfl, rfl, ?_, rfl⟩
  show (now + s.ACCESS_TOKEN_EXPIRE_MINUTES * 60) - now =
    s.ACCESS_TOKEN_EXPIRE_MINUTES * 60
  exact Nat.add_sub_cancel_left now (s.ACCESS_TOKEN_EXPIRE_MINUTES * 60)

/-- C10: the user-returning reads of the service — lookup by email, lookup by
id, and authenticate — only ever return users whose `active` flag is true; a
stored user with `active = false` is never the result of any of them. -/
theorem c10_reads_only_active (db : List User) (email : String) (uid : Nat)
    (pw : String) :
    (∀ u, AuthService.get_user_by_email db email = some u →
      u.active = true) ∧
    (∀ u, AuthService.get_user_by_id db uid = some u → u.active = true) ∧
    (∀ u, authenticate_user db email pw = .ok u → u.active = true) ∧
    (∀ u ∈ db, u.active = false →
      AuthService.get_user_by_email db email ≠ some u ∧
      AuthService.get_user_by_id db uid ≠ some u ∧
      authenticate_user db email pw ≠ .ok u) := by
  have hmail : ∀ u, AuthService.get_user_by_email db email = some u →
      u.active = true := by
    intro u h
    have := List.find?_some h
    exact (Bool.and_eq_true _ _ |>.mp this).2
  have hid : ∀ u, AuthService.get_user_by_id db uid = some u →
      u.active = true := by
    intro u h
    have := List.find?_some h
    exact (Bool.and_eq_true _ _ |>.mp this).2
  have hauth : ∀ u, authenticate_user db email pw = .ok u →
      u.active = true := by
    intro u h
    unfold authenticate_user at h
    cases hf : db.find? (fun v => v.email == email && v.active) with
    | none => rw [hf] at h; cases h
    | some v =>
      rw [hf] at h
      by_cases hv : verify_password pw v.password_hash = true
      · simp [hv] at h
        have := List.find?_some hf
        rw [← h]
        exact (Bool.and_eq_true _ _ |>.mp this).2
      · simp [hv] at h
  refine ⟨hmail, hid, hauth, ?_⟩
  intro u _ hfalse
  refine ⟨?_, ?_, ?_⟩
  · intro hc
    rw [hmail u hc] at hfalse
    cases hfalse
  · intro hc
    rw [hid u hc] at hfalse
    cases hfalse
  · intro hc
    rw [hauth u hc] at hfalse
    cases hfalse

/-- Witness for C10: a concrete inactive stored user is returned by none of
the three reads. -/
theorem c10_reads_only_active_witness :
    AuthService.get_user_by_email
        [⟨7, "g@x.com", get_password_hash "pw123456", "G", "X", "USD",
          "en-US", false⟩] "g@x.com" ≠
      some ⟨7, "g@x.com", get_password_hash "pw123456", "G", "X", "USD",
        "en-US", false⟩ ∧
    AuthService.get_user_by_id
        [⟨7, "g@x.com", get_password_hash "pw123456", "G", "X", "USD",
          "en-US", false⟩] 7 ≠
      some ⟨7, "g@x.com", get_password_hash "pw123456", "G", "X", "USD",
        "en-US", false⟩ ∧
    authenticate_user
        [⟨7, "g@x.com", get_password_hash "pw123456", "G", "X", "USD",
          "en-US", false⟩] "g@x.com" "pw123456" ≠
      .ok ⟨7, "g@x.com", get_password_hash "pw123456", "G", "X", "USD",
        "en-US", false⟩ :=
  (c10_reads_only_active _ "g@x.com" 7 "pw123456").2.2.2
    _ (List.mem_singleton.mpr rfl) rfl

/-- C7: `update_password` fails with `IncorrectPassword` — committing nothing,
so the stored hash is unchanged — when the current password does not verify;
when it verifies, the stored hash is replaced by the hash of the new
password, after which authenticating with the old password fails
`InvalidCredentials` and authenticating with the new password succeeds. The
success half assumes the user is the row the active-email lookup finds, that
the primary-key id is unique, and that the two passwords differ. -/
theorem c7_update_password_spec (db : List User) (user : User)
    (cur new : String) :
    (verify_password cur user.password_hash = false →
      AuthService.update_password db user ⟨cur, new⟩ =
        .error .incorrectPassword) ∧
    (verify_password cur user.password_hash = true →
      db.find? (fun v => v.email == user.email && v.active) = some user →
      (∀ v ∈ db, v.id = user.id → v = user) →
      cur ≠ new →
      ∃ user' db',
        AuthService.update_password db user ⟨cur, new⟩ = .ok (user', db') ∧
        user'.password_hash = get_password_hash new ∧
        authenticate_user db' user.email cur = .error .invalidCredentials ∧
        authenticate_user db' user.email new = .ok user') := by
  constructor
  · intro hv
    simp [AuthService.update_password, hv]
  · intro hv hfind hid hneq
    have hpu := List.find?_some hfind
    have hactive : user.active = true := by
      simp at hpu
      exact hpu
    refine ⟨{user with password_hash := get_password_hash new},
      db.map (fun v => if v.id == user.id then
        {user with password_hash := get_password_hash new} else v),
      ?_, rfl, ?_, ?_⟩
    · simp [AuthService.update_password, hv]
    · have hp : (fun v => v.email == user.email && v.active)
          {user with password_hash := get_password_hash new} = true := by
        simp [hactive]
      have hfind' := find?_replace_by_id db user
        {user with password_hash := get_password_hash new} _ hfind hid hp
      unfold AuthService.authenticate_user
      rw [hfind']
      have hbad : verify_password cur (get_password_hash new) = false :=
        verify_password_hash_ne cur new hneq
      simp [hbad]
    · have hp : (fun v => v.email == user.email && v.active)
          {user with password_hash := get_password_hash new} = true := by
        simp [hactive]
      have hfind' := find?_replace_by_id db user
        {user with password_hash := get_password_hash new} _ hfind hid hp
      unfold AuthService.authenticate_user
      rw [hfind']
      simp [verify_password_hash_self new]

/-- Witness for C7: the spec's concrete scenario — wrong current password
fails, right current password rotates the hash, then the old password no
longer authenticates while the new one does. -/
theorem c7_update_password_spec_witness :
    AuthService.update_password
        [⟨1, "a@x.com", get_password_hash "password123", "A", "X", "USD",
          "en-US", true⟩]
        ⟨1, "a@x.com", get_password_hash "password123", "A", "X", "USD",
          "en-US", true⟩ ⟨"wrong", "newpass123"⟩ =
      .error .incorrectPassword ∧
    ∃ user' db',
      AuthService.update_password
          [⟨1, "a@x.com", get_password_hash "password123", "A", "X", "USD",
            "en-US", true⟩]
          ⟨1, "a@x.com", get_password_hash "password123", "A", "X", "USD",
            "en-US", true⟩ ⟨"password123", "newpass123"⟩ =
        .ok (user', db') ∧
      user'.password_hash = get_password_hash "newpass123" ∧
      authenticate_user db' "a@x.com" "password123" =
        .error .invalidCredentials ∧
      authenticate_user db' "a@x.com" "newpass123" = .ok user' := by
  constructor
  · exact (c7_update_password_spec
      [⟨1, "a@x.com", get_password_hash "password123", "A", "X", "USD",
        "en-US", true⟩]
      ⟨1, "a@x.com", get_password_hash "password123", "A", "X", "USD",
        "en-US", true⟩ "wrong" "newpass123").1 (by decide)
  · exact (c7_update_password_spec
      [⟨1, "a@x.com", get_password_hash "password123", "A", "X", "USD",
        "en-US", true⟩]
      ⟨1, "a@x.com", get_password_hash "password123", "A", "X", "USD",
        "en-US", true⟩ "password123" "newpass123").2 (by decide) (by rfl)
      (by decide) (by decide)

end Colony
